import Mathlib

/-!
Verification of the aqua-speed adaptive measurement engine.

Shallow embedding of the measurement core:
* `calculateStats` (src/utils/common.ts) — statistics aggregator;
* `adjustThreadCount` — adaptive thread sizer (enhanced version) and
  `SpeedTest.adjustThreadCount` (src/models/speedTest.ts local version);
* `measureSpeedLoop` — the concurrency controller sampling loop of
  `measureSpeed` (src/models/speedTest.ts), with round outcomes and the
  wall clock supplied as explicit inputs;
* `downloadTestWorker` / `testUploadWorker` — transfer workers, with the
  stream read events and per-attempt outcomes supplied as inputs;
* `checkUrlAvailability` — availability prober;
* `measureHTTPLatency` / `measureHTTPLatencyH2` — HTTP latency probe with
  the HTTP/2 → HTTP/1.1 protocol fallback.

Numbers are modelled by `ℚ` (ℝ where the source takes a square root);
wall-clock timestamps, byte counts and outcomes of network operations are
explicit parameters, since the engine treats them as ambient inputs.
-/

namespace AquaSpeed

/-- Result record of `calculateStats` (interface `SpeedStats`, src/types.ts).
`stdDev` and `error` involve `Math.sqrt`, hence live in `ℝ`. -/
structure SpeedStats where
  min : ℚ
  avg : ℚ
  max : ℚ
  stdDev : ℝ
  error : ℝ

/-- `Math.min(...xs)` for a nonempty argument list. -/
def jsMin : List ℚ → ℚ
  | [] => 0
  | x :: xs => xs.foldl min x

/-- `Math.max(...xs)` for a nonempty argument list. -/
def jsMax : List ℚ → ℚ
  | [] => 0
  | x :: xs => xs.foldl max x

/-- `calculateStats` from src/utils/common.ts:
filters the samples to the strictly positive ones; on an empty remainder
returns the all-zero record with `error = 1`; otherwise min/max/avg,
population variance, `stdDev = sqrt variance` and
`error = (stdDev/avg) * (1.96/sqrt n)`. -/
noncomputable def calculateStats (samples : List ℚ) : SpeedStats :=
  let validSamples := samples.filter (fun s => decide (0 < s))
  if validSamples.length = 0 then ⟨0, 0, 0, 0, 1⟩
  else
    let mn := jsMin validSamples
    let mx := jsMax validSamples
    let avg : ℚ := validSamples.sum / (validSamples.length : ℚ)
    let variance : ℚ := ((validSamples.map (fun v => (v - avg) ^ 2)).sum) / (validSamples.length : ℚ)
    let stdDev := Real.sqrt (variance : ℝ)
    let error := (stdDev / (avg : ℝ)) * ((1.96 : ℝ) / Real.sqrt (validSamples.length : ℝ))
    ⟨mn, avg, mx, stdDev, error⟩

theorem calculateStats_of_no_positive (samples : List ℚ)
    (h : ∀ s ∈ samples, s ≤ 0) :
    calculateStats samples = ⟨0, 0, 0, 0, 1⟩ := by
  have hfil : samples.filter (fun s => decide (0 < s)) = [] := by
    simp only [List.filter_eq_nil_iff]
    intro a ha
    simpa using not_lt.mpr (h a ha)
  simp [calculateStats, hfil]

theorem calculateStats_filter_invariant (samples : List ℚ) :
    calculateStats (samples.filter (fun s => decide (0 < s))) = calculateStats samples := by
  have hff : (samples.filter (fun s => decide (0 < s))).filter (fun s => decide (0 < s))
      = samples.filter (fun s => decide (0 < s)) := by
    rw [List.filter_filter]
    congr 1
    funext s
    by_cases hs : (0 : ℚ) < s <;> simp [hs]
  simp only [calculateStats, hff]

/-- C3: `calculateStats` excludes all samples ≤ 0 before computing
statistics (its result depends only on the positive samples), and on any
list with no positive sample — in particular the empty list — it returns
min = 0, avg = 0, max = 0, stdDev = 0 and error = 1. -/
theorem claim_C3_calculateStats_nonpositive (samples : List ℚ)
    (h : ∀ s ∈ samples, s ≤ 0) :
    calculateStats (samples.filter (fun s => decide (0 < s))) = calculateStats samples ∧
    calculateStats samples = ⟨0, 0, 0, 0, 1⟩ ∧
    calculateStats [] = ⟨0, 0, 0, 0, 1⟩ := by
  refine ⟨calculateStats_filter_invariant samples, calculateStats_of_no_positive samples h, ?_⟩
  exact calculateStats_of_no_positive [] (by simp)

/-- Witness for C3 at the concrete all-invalid list `[-1, 0, -1]`. -/
theorem claim_C3_witness :
    calculateStats ((([-1, 0, -1] : List ℚ)).filter (fun s => decide (0 < s)))
        = calculateStats [-1, 0, -1] ∧
    calculateStats [-1, 0, -1] = ⟨0, 0, 0, 0, 1⟩ ∧
    calculateStats [] = ⟨0, 0, 0, 0, 1⟩ :=
  claim_C3_calculateStats_nonpositive [-1, 0, -1] (by decide)

theorem foldl_min_le_mem (xs : List ℚ) :
    ∀ (x : ℚ), ∀ a ∈ x :: xs, xs.foldl min x ≤ a := by
  induction xs with
  | nil =>
    intro x a ha
    simp only [List.mem_singleton] at ha
    simp [ha]
  | cons y ys ih =>
    intro x a ha
    simp only [List.foldl_cons]
    rcases List.mem_cons.mp ha with rfl | ha2
    · exact le_trans (ih (min a y) (min a y) (List.mem_cons_self _ _)) (min_le_left _ _)
    · rcases List.mem_cons.mp ha2 with rfl | ha3
      · exact le_trans (ih (min x a) (min x a) (List.mem_cons_self _ _)) (min_le_right _ _)
      · exact ih (min x y) a (List.mem_cons_of_mem _ ha3)

theorem le_foldl_max_mem (xs : List ℚ) :
    ∀ (x : ℚ), ∀ a ∈ x :: xs, a ≤ xs.foldl max x := by
  induction xs with
  | nil =>
    intro x a ha
    simp only [List.mem_singleton] at ha
    simp [ha]
  | cons y ys ih =>
    intro x a ha
    simp only [List.foldl_cons]
    rcases List.mem_cons.mp ha with rfl | ha2
    · exact le_trans (le_max_left _ _) (ih (max a y) (max a y) (List.mem_cons_self _ _))
    · rcases List.mem_cons.mp ha2 with rfl | ha3
      · exact le_trans (le_max_right _ _) (ih (max x a) (max x a) (List.mem_cons_self _ _))
      · exact ih (max x y) a (List.mem_cons_of_mem _ ha3)

theorem mul_length_le_sum (l : List ℚ) (m : ℚ) (h : ∀ x ∈ l, m ≤ x) :
    (l.length : ℚ) * m ≤ l.sum := by
  induction l with
  | nil => simp
  | cons x xs ih =>
    have hx := h x (List.mem_cons_self _ _)
    have hxs := ih (fun y hy => h y (List.mem_cons_of_mem _ hy))
    simp only [List.sum_cons, List.length_cons]
    push_cast
    linarith

theorem sum_le_mul_length (l : List ℚ) (m : ℚ) (h : ∀ x ∈ l, x ≤ m) :
    l.sum ≤ (l.length : ℚ) * m := by
  induction l with
  | nil => simp
  | cons x xs ih =>
    have hx := h x (List.mem_cons_self _ _)
    have hxs := ih (fun y hy => h y (List.mem_cons_of_mem _ hy))
    simp only [List.sum_cons, List.length_cons]
    push_cast
    linarith

theorem jsMin_le_avg (x : ℚ) (xs : List ℚ) :
    jsMin (x :: xs) ≤ (x :: xs).sum / (((x :: xs).length : ℕ) : ℚ) := by
  have hlen : (0 : ℚ) < (((x :: xs).length : ℕ) : ℚ) := by
    simp only [List.length_cons]
    push_cast
    positivity
  rw [le_div_iff hlen, mul_comm]
  exact mul_length_le_sum _ _ (fun a ha => foldl_min_le_mem xs x a ha)

theorem avg_le_jsMax (x : ℚ) (xs : List ℚ) :
    (x :: xs).sum / (((x :: xs).length : ℕ) : ℚ) ≤ jsMax (x :: xs) := by
  have hlen : (0 : ℚ) < (((x :: xs).length : ℕ) : ℚ) := by
    simp only [List.length_cons]
    push_cast
    positivity
  rw [div_le_iff hlen, mul_comm]
  exact sum_le_mul_length _ _ (fun a ha => le_foldl_max_mem xs x a ha)

theorem calculateStats_triple_100 :
    calculateStats [100, 100, 100] = ⟨100, 100, 100, 0, 0⟩ := by
  have hfil : (([100, 100, 100] : List ℚ)).filter (fun s => decide (0 < s))
      = [100, 100, 100] := by decide
  simp only [calculateStats, hfil]
  norm_num [jsMin, jsMax]

/-- C7: for every sample list with at least one positive value,
`calculateStats` satisfies min ≤ avg ≤ max, stdDev ≥ 0, and computes the
relative error as `(stdDev/avg) * (1.96/sqrt n)` over the `n` positive
samples; in particular `calculateStats [100,100,100]` is
`{min := 100, avg := 100, max := 100, stdDev := 0, error := 0}`. -/
theorem claim_C7_calculateStats_positive (samples : List ℚ)
    (h : ∃ s ∈ samples, 0 < s) :
    (calculateStats samples).min ≤ (calculateStats samples).avg ∧
    (calculateStats samples).avg ≤ (calculateStats samples).max ∧
    0 ≤ (calculateStats samples).stdDev ∧
    (calculateStats samples).error
      = ((calculateStats samples).stdDev / (((calculateStats samples).avg : ℚ) : ℝ)) *
        ((1.96 : ℝ) / Real.sqrt (((samples.filter (fun s => decide (0 < s))).length : ℕ) : ℝ)) ∧
    calculateStats [100, 100, 100] = ⟨100, 100, 100, 0, 0⟩ := by
  obtain ⟨s, hs, hpos⟩ := h
  have hmem : s ∈ samples.filter (fun s => decide (0 < s)) := by
    simp [List.mem_filter, hs, hpos]
  have hne : samples.filter (fun s => decide (0 < s)) ≠ [] :=
    List.ne_nil_of_mem hmem
  obtain ⟨x, xs, hcons⟩ := List.exists_cons_of_ne_nil hne
  have hlen : (samples.filter (fun s => decide (0 < s))).length ≠ 0 := by
    rw [hcons]; simp
  simp only [calculateStats, hlen, if_false, if_neg hlen]
  refine ⟨?_, ?_, Real.sqrt_nonneg _, by trivial, calculateStats_triple_100⟩
  · rw [hcons]; exact jsMin_le_avg x xs
  · rw [hcons]; exact avg_le_jsMax x xs

/-- Witness for C7 at the concrete list `[50, 100]`. -/
theorem claim_C7_witness :
    (calculateStats [50, 100]).min ≤ (calculateStats [50, 100]).avg ∧
    (calculateStats [50, 100]).avg ≤ (calculateStats [50, 100]).max ∧
    0 ≤ (calculateStats [50, 100]).stdDev ∧
    (calculateStats [50, 100]).error
      = ((calculateStats [50, 100]).stdDev / (((calculateStats [50, 100]).avg : ℚ) : ℝ)) *
        ((1.96 : ℝ) / Real.sqrt (((([50, 100] : List ℚ).filter (fun s => decide (0 < s))).length : ℕ) : ℝ)) ∧
    calculateStats [100, 100, 100] = ⟨100, 100, 100, 0, 0⟩ :=
  claim_C7_calculateStats_positive [50, 100] (by decide)

/-- `TestConfigBase` (src/types.ts): the optional per-run configuration;
absent fields fall back to `DEFAULT_TEST_OPTIONS` / `DEFAULT_CONFIG`
(minTestTime 5000, maxTestTime 30000, targetError 0.05, minSamples 3,
thread 4) when merged. -/
structure TestConfigBase where
  thread : Option ℤ
  targetError : Option ℚ
  minTestTime : Option ℚ
  maxTestTime : Option ℚ
  minSamples : Option ℕ

/-- `config.thread || DEFAULT_TEST_OPTIONS.thread`: JS `||` replaces both
`undefined` and `0` by the default 4. -/
def resolvedThread (cfg : TestConfigBase) : ℤ :=
  match cfg.thread with
  | none => 4
  | some t => if t = 0 then 4 else t

/-- `{...DEFAULT, ...config}.targetError` (spread keeps an explicit 0). -/
def mergedTargetError (cfg : TestConfigBase) : ℚ := cfg.targetError.getD (5 / 100)

def mergedMinTestTime (cfg : TestConfigBase) : ℚ := cfg.minTestTime.getD 5000

def mergedMaxTestTime (cfg : TestConfigBase) : ℚ := cfg.maxTestTime.getD 30000

def mergedMinSamples (cfg : TestConfigBase) : ℕ := cfg.minSamples.getD 3

/-- Ephemeral per-round network metrics of the adaptive thread sizer. -/
structure NetworkMetrics where
  stability : ℝ
  congestion : ℝ
  trend : ℚ
  variance : ℚ

/-- `calculateTrend`: mean fractional change between consecutive samples. -/
def calculateTrend (samples : List ℚ) : ℚ :=
  if samples.length < 2 then 0
  else
    let deltas := ((samples.drop 1).zip samples).map (fun p => (p.1 - p.2) / p.2)
    deltas.sum / (deltas.length : ℚ)

/-- `calculateVariance`: population variance of the sample window. -/
def calculateVariance (samples : List ℚ) : ℚ :=
  let mean := samples.sum / (samples.length : ℚ)
  ((samples.map (fun x => (x - mean) ^ 2)).sum) / (samples.length : ℚ)

/-- `calculateStability`: average of a variance factor and an error factor,
each clamped below at 0. -/
noncomputable def calculateStability (variance : ℚ) (stats : SpeedStats) : ℝ :=
  let varFactor : ℚ := max 0 (1 - variance / stats.avg)
  let errorFactor : ℝ := max 0 (1 - stats.error)
  ((varFactor : ℝ) + errorFactor) / 2

/-- `calculateCongestion`: average of a negative-trend factor and an error
factor, each clamped above at 1. -/
noncomputable def calculateCongestion (trend : ℚ) (stats : SpeedStats) : ℝ :=
  let trendFactor : ℚ := if trend < 0 then min 1 (-trend / (1 / 2)) else 0
  let errorFactor : ℝ := min 1 (stats.error * 2)
  ((trendFactor : ℝ) + errorFactor) / 2

/-- `calculateNetworkMetrics` over the last 5 samples (`slice(-5)`). -/
noncomputable def calculateNetworkMetrics (samples : List ℚ) (stats : SpeedStats) :
    NetworkMetrics :=
  let recentSamples := samples.drop (samples.length - 5)
  let trend := calculateTrend recentSamples
  let variance := calculateVariance recentSamples
  ⟨calculateStability variance stats, calculateCongestion trend stats, trend, variance⟩

/-- `shouldAdjustThreads`: instability test for the dynamic branch. -/
def shouldAdjustThreads (m : NetworkMetrics) (stats : SpeedStats) (targetError : ℚ) :
    Prop :=
  |stats.error - (targetError : ℝ)| > (targetError : ℝ) * 0.3 ∨
  |m.trend| > 0.15 ∨
  m.stability < 0.5 ∨
  m.congestion > 0.7

/-- `Math.sign` on a real number. -/
noncomputable def jsSign (x : ℝ) : ℤ :=
  if x < 0 then -1 else if 0 < x then 1 else 0

/-- `calculateThreadAdjustment`: signed base step ±1/±2 plus condition
penalties and bonus. -/
noncomputable def calculateThreadAdjustment (m : NetworkMetrics) (stats : SpeedStats)
    (targetError : ℚ) : ℤ :=
  let errorDiff : ℝ := stats.error - (targetError : ℝ)
  let base : ℤ := jsSign errorDiff * (if |errorDiff| > (targetError : ℝ) * 0.5 then 2 else 1)
  let a1 : ℤ := if m.congestion > 0.8 then base - 1 else base
  let a2 : ℤ := if m.stability < 0.3 then a1 - 1 else a1
  let a3 : ℤ := if m.trend < -0.2 then a2 - 1 else a2
  if m.trend > 0.2 ∧ m.stability > 0.7 then a3 + 1 else a3

open Classical in
/-- `adjustThreadCount` — the enhanced adaptive thread sizer
(`src/unnamed/part_013`): bounds `min(12, 2·thread)` / `max(1, ⌊thread/4⌋)`,
cold-start guard below 3 samples, aggressive/conservative scaling, then the
metric-driven dynamic adjustment clamped to the bounds. -/
noncomputable def adjustThreadCount (samples : List ℚ) (activeThreads : ℤ)
    (stats : SpeedStats) (cfg : TestConfigBase) : ℤ :=
  let targetError := mergedTargetError cfg
  let maxThreads : ℤ := min 12 (resolvedThread cfg * 2)
  let minThreads : ℤ := max 1 (Int.fdiv (resolvedThread cfg) 4)
  if samples.length < 3 then activeThreads
  else
    let metrics := calculateNetworkMetrics samples stats
    if stats.error > (targetError : ℝ) * 2 ∧ metrics.stability > 0.6 then
      min (activeThreads + 2) maxThreads
    else if stats.error < (targetError : ℝ) * 0.5 ∧ metrics.stability > 0.8 then
      max (activeThreads - 1) minThreads
    else if shouldAdjustThreads metrics stats targetError then
      let adjustment := calculateThreadAdjustment metrics stats targetError
      max minThreads (min maxThreads (activeThreads + adjustment))
    else activeThreads

/-- C2 fails as stated: with fewer than 3 samples (cold-start guard) the
sizer returns the current active thread count unchanged, which may lie
outside the claimed interval. Concrete input: no samples, 100 active
threads, configured thread count 4, interval `[1, min 12 8] = [1, 8]`. -/
theorem claim_C2_counterexample :
    ¬ (∀ (samples : List ℚ) (activeThreads : ℤ) (stats : SpeedStats)
        (cfg : TestConfigBase),
        max 1 (Int.fdiv (resolvedThread cfg) 4)
            ≤ adjustThreadCount samples activeThreads stats cfg ∧
        adjustThreadCount samples activeThreads stats cfg
            ≤ min 12 (resolvedThread cfg * 2)) := by
  intro hclaim
  have h := (hclaim [] 100 ⟨0, 0, 0, 0, 1⟩ ⟨some 4, none, none, none, none⟩).2
  have heval : adjustThreadCount [] 100 ⟨0, 0, 0, 0, 1⟩ ⟨some 4, none, none, none, none⟩
      = 100 := rfl
  rw [heval] at h
  have : resolvedThread ⟨some 4, none, none, none, none⟩ = 4 := rfl
  rw [this] at h
  norm_num at h

/-- C2 amended: whenever the current active thread count already lies in
the interval `[max(1, ⌊thread/4⌋), min(12, 2·thread)]`, the adaptive
thread sizer returns a value inside that interval, for every sample
history and statistics record. (With fewer than 3 samples, or when no
adjustment triggers, it returns the input count unchanged.) -/
theorem claim_C2_amended_adjustThreadCount_bounds (samples : List ℚ)
    (activeThreads : ℤ) (stats : SpeedStats) (cfg : TestConfigBase)
    (hlo : max 1 (Int.fdiv (resolvedThread cfg) 4) ≤ activeThreads)
    (hhi : activeThreads ≤ min 12 (resolvedThread cfg * 2)) :
    max 1 (Int.fdiv (resolvedThread cfg) 4)
        ≤ adjustThreadCount samples activeThreads stats cfg ∧
    adjustThreadCount samples activeThreads stats cfg
        ≤ min 12 (resolvedThread cfg * 2) := by
  have hminmax : max 1 (Int.fdiv (resolvedThread cfg) 4) ≤ min 12 (resolvedThread cfg * 2) :=
    le_trans hlo hhi
  simp only [adjustThreadCount]
  by_cases h1 : samples.length < 3
  · simp only [if_pos h1]
    exact ⟨hlo, hhi⟩
  · simp only [if_neg h1]
    by_cases h2 : stats.error > (mergedTargetError cfg : ℝ) * 2 ∧
        (calculateNetworkMetrics samples stats).stability > 0.6
    · simp only [if_pos h2]
      constructor
      · exact le_min (le_trans hlo (by omega)) hminmax
      · exact min_le_right _ _
    · simp only [if_neg h2]
      by_cases h3 : stats.error < (mergedTargetError cfg : ℝ) * 0.5 ∧
          (calculateNetworkMetrics samples stats).stability > 0.8
      · simp only [if_pos h3]
        constructor
        · exact le_max_right _ _
        · exact max_le (le_trans (by omega) hhi) hminmax
      · simp only [if_neg h3]
        by_cases h4 : shouldAdjustThreads (calculateNetworkMetrics samples stats) stats
            (mergedTargetError cfg)
        · simp only [if_pos h4]
          constructor
          · exact le_max_left _ _
          · exact max_le hminmax (min_le_left _ _)
        · simp only [if_neg h4]
          exact ⟨hlo, hhi⟩

/-- Witness for the amended C2 at 4 active threads of 4 configured. -/
theorem claim_C2_amended_witness :
    max 1 (Int.fdiv (resolvedThread ⟨some 4, none, none, none, none⟩) 4)
        ≤ adjustThreadCount [] 4 ⟨0, 0, 0, 0, 1⟩ ⟨some 4, none, none, none, none⟩ ∧
    adjustThreadCount [] 4 ⟨0, 0, 0, 0, 1⟩ ⟨some 4, none, none, none, none⟩
        ≤ min 12 (resolvedThread ⟨some 4, none, none, none, none⟩ * 2) :=
  claim_C2_amended_adjustThreadCount_bounds [] 4 ⟨0, 0, 0, 0, 1⟩
    ⟨some 4, none, none, none, none⟩ (by decide) (by decide)

namespace SpeedTest

/-- The local `adjustThreadCount` of src/models/speedTest.ts (the version
called by `measureSpeed`): bounds `min(8, 2·thread)` / `max(1, ⌊thread/2⌋)`,
cold-start guard below 2 samples, and a speed-difference heuristic. -/
noncomputable def adjustThreadCount (samples : List ℚ) (activeThreads : ℤ)
    (stats : SpeedStats) (cfg : TestConfigBase) : ℤ :=
  let targetError := mergedTargetError cfg
  let maxThreads : ℤ := min 8 (resolvedThread cfg * 2)
  let minThreads : ℤ := max 1 (Int.fdiv (resolvedThread cfg) 2)
  if samples.length < 2 then activeThreads
  else
    let lastSpeed := samples.getD (samples.length - 1) 0
    let prevSpeed := samples.getD (samples.length - 2) 0
    let speedDiff := |lastSpeed - prevSpeed| / prevSpeed
    if speedDiff > 0.2 ∧ stats.error > (targetError : ℝ) * 1.5 then
      min (activeThreads + 1) maxThreads
    else if speedDiff < 0.1 ∧ stats.error < (targetError : ℝ) / 2 then
      max (activeThreads - 1) minThreads
    else activeThreads

end SpeedTest

/-- One round of the sampling loop, as seen by the controller: the
wall-clock time the round consumed and the settled result of the round's
`Promise.all` over its workers. -/
structure Round where
  duration : ℚ
  outcome : Except String ℚ

/-- Mutable state of the `measureSpeed` sampling loop. -/
structure LoopState where
  samples : List ℚ
  activeThreads : ℤ
  elapsed : ℚ
  currentUrl : String
  urlIndex : ℕ

/-- How the `measureSpeed` sampling loop ends: a normal `break` (after
which `calculateStats samples` is returned), or a thrown error. -/
inductive LoopExit where
  | done (samples : List ℚ) (elapsed : ℚ)
  | failed (msg : String)
  deriving DecidableEq

/-- Boolean success test on a settled worker/round result. -/
def isOkB : Except String ℚ → Bool
  | .ok _ => true
  | .error _ => false

/-- The inner `while` of the mid-test fallback `catch` in `measureSpeed`
(src/models/speedTest.ts lines 242-250): scans `fallbackUrls` from
`urlIndex`, setting `currentUrl` on each reachable candidate and always
advancing `urlIndex` — the `continue` inside it targets this inner loop,
so the scan only stops when `urlIndex` reaches the end of the list. -/
def fallbackScan (avail : String → Bool) (fallbackUrls : List String)
    (currentUrl : String) (urlIndex : ℕ) : String × ℕ :=
  if h : urlIndex < fallbackUrls.length then
    let nextUrl := fallbackUrls.get ⟨urlIndex, h⟩
    if avail nextUrl then fallbackScan avail fallbackUrls nextUrl (urlIndex + 1)
    else fallbackScan avail fallbackUrls currentUrl (urlIndex + 1)
  else (currentUrl, urlIndex)
termination_by fallbackUrls.length - urlIndex

/-- The sampling loop of `measureSpeed` (src/models/speedTest.ts lines
212-260). Each iteration: exit at `elapsed ≥ maxTestTime`; exit at
convergence (`elapsed ≥ minTestTime` and `samples.length ≥ minSamples` and
`stats.error ≤ targetError`); otherwise adjust the thread count, run the
round, on success append the round speed and sleep 500 ms, on failure run
the fallback `catch`. `rounds` lists the outcomes of the rounds the
environment would produce; an exhausted list with the loop still running
yields `none`. -/
noncomputable def measureSpeedLoop (cfg : TestConfigBase) (avail : String → Bool)
    (fallbackUrls : List String) : LoopState → List Round → Option LoopExit
  | st, rounds =>
    if st.elapsed ≥ mergedMaxTestTime cfg then some (.done st.samples st.elapsed)
    else
      let stats := calculateStats st.samples
      if st.elapsed ≥ mergedMinTestTime cfg ∧
          st.samples.length ≥ mergedMinSamples cfg ∧
          stats.error ≤ (mergedTargetError cfg : ℝ) then
        some (.done st.samples st.elapsed)
      else
        match rounds with
        | [] => none
        | r :: rs =>
          let threads := SpeedTest.adjustThreadCount st.samples st.activeThreads stats cfg
          match r.outcome with
          | .ok roundSpeed =>
            measureSpeedLoop cfg avail fallbackUrls
              ⟨st.samples ++ [roundSpeed], threads, st.elapsed + r.duration + 500,
                st.currentUrl, st.urlIndex⟩ rs
          | .error e =>
            if st.urlIndex < fallbackUrls.length then
              let scanned := fallbackScan avail fallbackUrls st.currentUrl st.urlIndex
              if fallbackUrls.length ≤ scanned.2 then
                some (.failed "All URLs are unavailable")
              else
                measureSpeedLoop cfg avail fallbackUrls
                  ⟨st.samples, threads, st.elapsed + r.duration, scanned.1, scanned.2⟩ rs
            else some (.failed e)

theorem measureSpeedLoop_exit_max (cfg : TestConfigBase) (avail : String → Bool)
    (fallbackUrls : List String) (st : LoopState) (rounds : List Round)
    (h : mergedMaxTestTime cfg ≤ st.elapsed) :
    measureSpeedLoop cfg avail fallbackUrls st rounds
      = some (LoopExit.done st.samples st.elapsed) := by
  unfold measureSpeedLoop
  rw [if_pos h]

theorem measureSpeedLoop_exit_converged (cfg : TestConfigBase) (avail : String → Bool)
    (fallbackUrls : List String) (st : LoopState) (rounds : List Round)
    (h1 : ¬ st.elapsed ≥ mergedMaxTestTime cfg)
    (h2 : st.elapsed ≥ mergedMinTestTime cfg ∧
      st.samples.length ≥ mergedMinSamples cfg ∧
      (calculateStats st.samples).error ≤ (mergedTargetError cfg : ℝ)) :
    measureSpeedLoop cfg avail fallbackUrls st rounds
      = some (LoopExit.done st.samples st.elapsed) := by
  unfold measureSpeedLoop
  rw [if_neg h1, if_pos h2]

theorem measureSpeedLoop_step_ok (cfg : TestConfigBase) (avail : String → Bool)
    (fallbackUrls : List String) (st : LoopState) (r : Round) (rs : List Round)
    (v : ℚ) (hv : r.outcome = Except.ok v)
    (h1 : ¬ st.elapsed ≥ mergedMaxTestTime cfg)
    (h2 : ¬ (st.elapsed ≥ mergedMinTestTime cfg ∧
      st.samples.length ≥ mergedMinSamples cfg ∧
      (calculateStats st.samples).error ≤ (mergedTargetError cfg : ℝ))) :
    measureSpeedLoop cfg avail fallbackUrls st (r :: rs)
      = measureSpeedLoop cfg avail fallbackUrls
          ⟨st.samples ++ [v],
            SpeedTest.adjustThreadCount st.samples st.activeThreads
              (calculateStats st.samples) cfg,
            st.elapsed + r.duration + 500, st.currentUrl, st.urlIndex⟩ rs := by
  conv_lhs => rw [measureSpeedLoop]
  simp only [if_neg h1, if_neg h2, hv]

theorem fallbackScan_snd_aux (avail : String → Bool) (fallbackUrls : List String) :
    ∀ (n urlIndex : ℕ) (currentUrl : String),
      fallbackUrls.length - urlIndex ≤ n → urlIndex ≤ fallbackUrls.length →
      (fallbackScan avail fallbackUrls currentUrl urlIndex).2 = fallbackUrls.length := by
  intro n
  induction n with
  | zero =>
    intro urlIndex currentUrl hn hle
    have heq : urlIndex = fallbackUrls.length := by omega
    unfold fallbackScan
    rw [dif_neg (by omega)]
    exact heq
  | succ n ih =>
    intro urlIndex currentUrl hn hle
    by_cases hlt : urlIndex < fallbackUrls.length
    · unfold fallbackScan
      rw [dif_pos hlt]
      by_cases ha : avail (fallbackUrls.get ⟨urlIndex, hlt⟩) = true
      · simp only [ha, if_true]
        exact ih (urlIndex + 1) _ (by omega) (by omega)
      · simp only [ha, if_false]
        exact ih (urlIndex + 1) _ (by omega) (by omega)
    · unfold fallbackScan
      rw [dif_neg hlt]
      omega

theorem fallbackScan_snd (avail : String → Bool) (fallbackUrls : List String)
    (urlIndex : ℕ) (currentUrl : String) (hle : urlIndex ≤ fallbackUrls.length) :
    (fallbackScan avail fallbackUrls currentUrl urlIndex).2 = fallbackUrls.length :=
  fallbackScan_snd_aux avail fallbackUrls (fallbackUrls.length - urlIndex) urlIndex
    currentUrl (le_refl _) hle

theorem measureSpeedLoop_step_error (cfg : TestConfigBase) (avail : String → Bool)
    (fallbackUrls : List String) (st : LoopState) (r : Round) (rs : List Round)
    (e : String) (hv : r.outcome = Except.error e)
    (h1 : ¬ st.elapsed ≥ mergedMaxTestTime cfg)
    (h2 : ¬ (st.elapsed ≥ mergedMinTestTime cfg ∧
      st.samples.length ≥ mergedMinSamples cfg ∧
      (calculateStats st.samples).error ≤ (mergedTargetError cfg : ℝ)))
    (hidx : st.urlIndex < fallbackUrls.length)
    (hscan : fallbackUrls.length ≤ (fallbackScan avail fallbackUrls st.currentUrl st.urlIndex).2) :
    measureSpeedLoop cfg avail fallbackUrls st (r :: rs)
      = some (LoopExit.failed "All URLs are unavailable") := by
  conv_lhs => rw [measureSpeedLoop]
  simp only [if_neg h1, if_neg h2, hv, if_pos hidx, if_pos hscan]

theorem measureSpeedLoop_terminates_aux (cfg : TestConfigBase) (avail : String → Bool)
    (fallbackUrls : List String) (D : ℚ) :
    ∀ (rounds : List Round) (st : LoopState),
      (∀ r ∈ rounds, isOkB r.outcome = true ∧ 0 ≤ r.duration ∧ r.duration ≤ D) →
      st.elapsed < mergedMaxTestTime cfg + D + 500 →
      mergedMaxTestTime cfg ≤ st.elapsed + 500 * rounds.length →
      ∃ samples e,
        measureSpeedLoop cfg avail fallbackUrls st rounds = some (LoopExit.done samples e) ∧
        e < mergedMaxTestTime cfg + D + 500 := by
  intro rounds
  induction rounds with
  | nil =>
    intro st hok hb hf
    have hge : mergedMaxTestTime cfg ≤ st.elapsed := by simpa using hf
    exact ⟨st.samples, st.elapsed,
      measureSpeedLoop_exit_max cfg avail fallbackUrls st [] hge, hb⟩
  | cons r rs ih =>
    intro st hok hb hf
    by_cases hge : st.elapsed ≥ mergedMaxTestTime cfg
    · exact ⟨st.samples, st.elapsed,
        measureSpeedLoop_exit_max cfg avail fallbackUrls st (r :: rs) hge, hb⟩
    · by_cases hconv : st.elapsed ≥ mergedMinTestTime cfg ∧
          st.samples.length ≥ mergedMinSamples cfg ∧
          (calculateStats st.samples).error ≤ (mergedTargetError cfg : ℝ)
      · exact ⟨st.samples, st.elapsed,
          measureSpeedLoop_exit_converged cfg avail fallbackUrls st (r :: rs) hge hconv, hb⟩
      · obtain ⟨hok1, hd0, hdD⟩ := hok r (List.mem_cons_self _ _)
        obtain ⟨v, hv⟩ : ∃ v, r.outcome = Except.ok v := by
          cases hout : r.outcome with
          | ok v => exact ⟨v, rfl⟩
          | error e =>
            rw [hout] at hok1
            simp [isOkB] at hok1
        have hlt : st.elapsed < mergedMaxTestTime cfg := lt_of_not_ge hge
        have hstep := measureSpeedLoop_step_ok cfg avail fallbackUrls st r rs v hv hge hconv
        have hrec := ih ⟨st.samples ++ [v],
            SpeedTest.adjustThreadCount st.samples st.activeThreads
              (calculateStats st.samples) cfg,
            st.elapsed + r.duration + 500, st.currentUrl, st.urlIndex⟩
          (fun x hx => hok x (List.mem_cons_of_mem _ hx))
          (by
            show st.elapsed + r.duration + 500 < mergedMaxTestTime cfg + D + 500
            linarith)
          (by
            show mergedMaxTestTime cfg ≤ st.elapsed + r.duration + 500 + 500 * (rs.length : ℚ)
            simp only [List.length_cons] at hf
            push_cast at hf
            linarith)
        obtain ⟨samples, e, heq, hlt2⟩ := hrec
        exact ⟨samples, e, hstep.trans heq, hlt2⟩

/-- C1: every iteration of the sampling loop first checks the elapsed
wall-clock time: it exits successfully as soon as `elapsed ≥ maxTestTime`,
exits early as soon as `elapsed ≥ minTestTime`, at least `minSamples`
samples are recorded and the relative error is within `targetError`; and
for rounds that complete (all outcomes `ok`, durations in `[0, D]`) with
enough rounds available, the loop terminates with elapsed time below
`maxTestTime + D + 500` (one round's duration plus the inter-round
sleep) — even when `targetError` can never be reached. -/
theorem claim_C1_sampling_loop_termination (cfg : TestConfigBase)
    (avail : String → Bool) (fallbackUrls : List String) (st : LoopState)
    (rounds : List Round) (D : ℚ)
    (hok : ∀ r ∈ rounds, isOkB r.outcome = true ∧ 0 ≤ r.duration ∧ r.duration ≤ D)
    (helb : st.elapsed < mergedMaxTestTime cfg + D + 500)
    (hfuel : mergedMaxTestTime cfg ≤ st.elapsed + 500 * rounds.length) :
    (mergedMaxTestTime cfg ≤ st.elapsed →
      measureSpeedLoop cfg avail fallbackUrls st rounds
        = some (LoopExit.done st.samples st.elapsed)) ∧
    (¬ st.elapsed ≥ mergedMaxTestTime cfg →
      (st.elapsed ≥ mergedMinTestTime cfg ∧
        st.samples.length ≥ mergedMinSamples cfg ∧
        (calculateStats st.samples).error ≤ (mergedTargetError cfg : ℝ)) →
      measureSpeedLoop cfg avail fallbackUrls st rounds
        = some (LoopExit.done st.samples st.elapsed)) ∧
    (∃ samples e,
      measureSpeedLoop cfg avail fallbackUrls st rounds = some (LoopExit.done samples e) ∧
      e < mergedMaxTestTime cfg + D + 500) := by
  refine ⟨measureSpeedLoop_exit_max cfg avail fallbackUrls st rounds,
    measureSpeedLoop_exit_converged cfg avail fallbackUrls st rounds, ?_⟩
  exact measureSpeedLoop_terminates_aux cfg avail fallbackUrls D rounds st hok helb hfuel

/-- Witness for C1: maxTestTime = minTestTime = 2000 ms, four completing
rounds of 1000 ms each; the loop exits at the wall-clock ceiling. -/
theorem claim_C1_witness :
    (mergedMaxTestTime ⟨none, none, some 2000, some 2000, none⟩ ≤ (0 : ℚ) →
      measureSpeedLoop ⟨none, none, some 2000, some 2000, none⟩ (fun _ => true) []
          ⟨[], 4, 0, "u", 0⟩
          [⟨1000, Except.ok 100⟩, ⟨1000, Except.ok 115⟩, ⟨1000, Except.ok 132⟩,
            ⟨1000, Except.ok 152⟩]
        = some (LoopExit.done [] 0)) ∧
    (¬ (0 : ℚ) ≥ mergedMaxTestTime ⟨none, none, some 2000, some 2000, none⟩ →
      ((0 : ℚ) ≥ mergedMinTestTime ⟨none, none, some 2000, some 2000, none⟩ ∧
        ([] : List ℚ).length ≥ mergedMinSamples ⟨none, none, some 2000, some 2000, none⟩ ∧
        (calculateStats []).error
          ≤ (mergedTargetError ⟨none, none, some 2000, some 2000, none⟩ : ℝ)) →
      measureSpeedLoop ⟨none, none, some 2000, some 2000, none⟩ (fun _ => true) []
          ⟨[], 4, 0, "u", 0⟩
          [⟨1000, Except.ok 100⟩, ⟨1000, Except.ok 115⟩, ⟨1000, Except.ok 132⟩,
            ⟨1000, Except.ok 152⟩]
        = some (LoopExit.done [] 0)) ∧
    (∃ samples e,
      measureSpeedLoop ⟨none, none, some 2000, some 2000, none⟩ (fun _ => true) []
          ⟨[], 4, 0, "u", 0⟩
          [⟨1000, Except.ok 100⟩, ⟨1000, Except.ok 115⟩, ⟨1000, Except.ok 132⟩,
            ⟨1000, Except.ok 152⟩]
        = some (LoopExit.done samples e) ∧
      e < mergedMaxTestTime ⟨none, none, some 2000, some 2000, none⟩ + 1000 + 500) :=
  claim_C1_sampling_loop_termination ⟨none, none, some 2000, some 2000, none⟩
    (fun _ => true) [] ⟨[], 4, 0, "u", 0⟩
    [⟨1000, Except.ok 100⟩, ⟨1000, Except.ok 115⟩, ⟨1000, Except.ok 132⟩,
      ⟨1000, Except.ok 152⟩] 1000
    (by decide) (by norm_num [mergedMaxTestTime]) (by norm_num [mergedMaxTestTime])

/-- C4 names the intended behavior, but the code contradicts it: the
`continue` in the fallback `catch` targets the inner pre-check `while`, so
the scan always runs `urlIndex` to the end of `fallbackUrls` and the
subsequent `urlIndex >= fallbackUrls.length` guard always throws
"All URLs are unavailable" — even when a reachable fallback was found (and
had even been assigned to `currentUrl`). Concretely: both fallbacks
reachable, round 1 fails, yet the loop fails instead of continuing. -/
theorem claim_C4_fallback_switch_code_bug :
    measureSpeedLoop ⟨none, none, none, none, none⟩ (fun _ => true)
        ["https://x.test/speed/garbage.php", "https://x.test/garbage.php"]
        ⟨[], 4, 0, "https://x.test/backend/garbage.php", 0⟩
        [⟨100, Except.error "fetch failed"⟩]
      = some (LoopExit.failed "All URLs are unavailable") ∧
    (fun (_ : String) => true) "https://x.test/speed/garbage.php" = true := by
  constructor
  · apply measureSpeedLoop_step_error _ _ _ _ _ _ "fetch failed" rfl
    · show ¬ (0 : ℚ) ≥ mergedMaxTestTime ⟨none, none, none, none, none⟩
      norm_num [mergedMaxTestTime]
    · intro h
      have h1 := h.1
      rw [show mergedMinTestTime ⟨none, none, none, none, none⟩ = 5000 from rfl] at h1
      norm_num at h1
    · show (0 : ℕ) < 2
      norm_num
    · rw [fallbackScan_snd _ _ 0 _ (by norm_num)]
  · rfl

/-- One sliding-window entry: cumulative bytes at a timestamp. -/
structure WindowEntry where
  bytes : ℕ
  timestamp : ℚ

/-- `calculateCurrentSpeed` of src/models/workers/download.ts: speed from
the first and last window entries, 0 below two entries or on a
non-positive duration. -/
def calculateCurrentSpeed (w : List WindowEntry) : ℚ :=
  if w.length < 2 then 0
  else
    let first := w.headD ⟨0, 0⟩
    let last := w.getLastD ⟨0, 0⟩
    let duration := (last.timestamp - first.timestamp) / 1000
    if duration ≤ 0 then 0
    else (((last.bytes : ℚ) - (first.bytes : ℚ)) * 8) / duration

/-- Internal state of the download worker's read loop. -/
structure DLState where
  totalBytes : ℕ
  speedWindow : List WindowEntry
  lastReportTime : ℚ
  chunkSize : ℚ

/-- One `reader.read()` chunk: its byte length and its arrival time. -/
structure ReadEvent where
  len : ℕ
  now : ℚ

/-- Processing of one read chunk in src/models/workers/download.ts: count
the bytes; every `SAMPLE_INTERVAL` (200 ms) push a window sample, keep the
last `WINDOW_SIZE` (5) entries, and resize the chunk target between 16 KB
and 1 MB according to the current speed. -/
def downloadStep (st : DLState) (e : ReadEvent) : DLState :=
  let totalBytes := st.totalBytes + e.len
  if e.now - st.lastReportTime ≥ 200 then
    let w1 := st.speedWindow ++ [⟨totalBytes, e.now⟩]
    let w2 := if 5 < w1.length then w1.drop 1 else w1
    let currentSpeed := calculateCurrentSpeed w2
    let chunkSize :=
      if currentSpeed > 10 * 1024 * 1024 then min (st.chunkSize * 2) 1048576
      else if currentSpeed < 1 * 1024 * 1024 then max (st.chunkSize / 2) 16384
      else st.chunkSize
    ⟨totalBytes, w2, e.now, chunkSize⟩
  else ⟨totalBytes, st.speedWindow, st.lastReportTime, st.chunkSize⟩

/-- How the streamed transfer of one download worker ends. -/
inductive Terminal where
  | done (now : ℚ)
  | errored (name : String) (now : ℚ)

/-- `downloadTestWorker` (src/models/workers/download.ts) over explicit
stream events. On completion the final speed blends the window speed
(weight 0.7) with the whole-transfer average; in the catch, an
`AbortError` resolves with the partial average `(totalBytes*8)/duration`
and any other error resolves with 0 — the worker never rejects. -/
def downloadTestWorker (startTime fetchTime : ℚ) (events : List ReadEvent)
    (t : Terminal) : Except String ℚ :=
  let st := events.foldl downloadStep ⟨0, [], fetchTime, 65536⟩
  match t with
  | .done now =>
    let totalDuration := (now - startTime) / 1000
    let averageSpeed := ((st.totalBytes : ℚ) * 8) / totalDuration
    let finalSpeed :=
      if 2 ≤ st.speedWindow.length then
        calculateCurrentSpeed st.speedWindow * 0.7 + averageSpeed * 0.3
      else averageSpeed
    .ok finalSpeed
  | .errored name now =>
    if name = "AbortError" then
      let durationSeconds := (now - startTime) / 1000
      .ok (((st.totalBytes : ℚ) * 8) / durationSeconds)
    else .ok 0

/-- `Promise.all` over a round's settled worker results, followed by the
controller's `reduce((a, b) => a + b, 0)`: resolves with the sum when all
workers resolve, rejects with the first rejection otherwise. -/
def runRound : List (Except String ℚ) → Except String ℚ
  | [] => .ok 0
  | r :: rs =>
    match r with
    | .error e => .error e
    | .ok v =>
      match runRound rs with
      | .ok s => .ok (v + s)
      | .error e => .error e

/-- The ambient inputs of one download worker invocation. -/
structure DLInput where
  startTime : ℚ
  fetchTime : ℚ
  events : List ReadEvent
  terminal : Terminal

def runDownloadWorker (i : DLInput) : Except String ℚ :=
  downloadTestWorker i.startTime i.fetchTime i.events i.terminal

/-- Does the transfer end in a non-abort error? -/
def isNonAbortErrorTerminal : Terminal → Bool
  | .errored name _ => decide (name ≠ "AbortError")
  | .done _ => false

theorem downloadTestWorker_isOk (startTime fetchTime : ℚ)
    (events : List ReadEvent) (t : Terminal) :
    ∃ v, downloadTestWorker startTime fetchTime events t = Except.ok v := by
  cases t with
  | done now => exact ⟨_, rfl⟩
  | errored name now =>
    by_cases h : name = "AbortError"
    · exact ⟨(((events.foldl downloadStep ⟨0, [], fetchTime, 65536⟩).totalBytes : ℚ) * 8)
          / ((now - startTime) / 1000), by simp [downloadTestWorker, h]⟩
    · exact ⟨0, by simp [downloadTestWorker, h]⟩

theorem runRound_all_ok (rs : List (Except String ℚ))
    (h : ∀ r ∈ rs, ∃ v, r = Except.ok v) :
    ∃ v, runRound rs = Except.ok v := by
  induction rs with
  | nil => exact ⟨0, rfl⟩
  | cons r rs ih =>
    obtain ⟨v, hv⟩ := h r (List.mem_cons_self _ _)
    obtain ⟨s, hs⟩ := ih (fun x hx => h x (List.mem_cons_of_mem _ hx))
    exact ⟨v + s, by simp [runRound, hv, hs]⟩

theorem runRound_all_zero (rs : List (Except String ℚ))
    (h : ∀ r ∈ rs, r = Except.ok 0) :
    runRound rs = Except.ok 0 := by
  induction rs with
  | nil => rfl
  | cons r rs ih =>
    have hv := h r (List.mem_cons_self _ _)
    have hs := ih (fun x hx => h x (List.mem_cons_of_mem _ hx))
    simp [runRound, hv, hs]

theorem calculateStats_append_zero (samples : List ℚ) :
    calculateStats (samples ++ [0]) = calculateStats samples := by
  have : (samples ++ [0]).filter (fun s => decide (0 < s))
      = samples.filter (fun s => decide (0 < s)) := by
    rw [List.filter_append]
    simp
  simp only [calculateStats, this]

/-- C10: a download worker that hits a non-abort error resolves with 0 bps
instead of rejecting; hence a round of download workers always resolves
(the controller's fallback/catch branch is never reached through a
download-worker failure), a round whose workers all fail appends the
sample 0, and that zero sample is excluded by `calculateStats`'s
positive-sample filter. -/
theorem claim_C10_download_zero_on_failure (startTime fetchTime : ℚ)
    (events : List ReadEvent) (e : String) (now : ℚ)
    (inputs : List DLInput) (samples : List ℚ)
    (he : e ≠ "AbortError") :
    downloadTestWorker startTime fetchTime events (.errored e now) = Except.ok 0 ∧
    (∃ v, runRound (inputs.map runDownloadWorker) = Except.ok v) ∧
    ((∀ i ∈ inputs, isNonAbortErrorTerminal i.terminal = true) →
      runRound (inputs.map runDownloadWorker) = Except.ok 0) ∧
    (∀ (d : ℚ) (cfg : TestConfigBase) (avail : String → Bool)
        (fallbackUrls : List String) (st : LoopState) (rs : List Round),
      (∀ i ∈ inputs, isNonAbortErrorTerminal i.terminal = true) →
      ¬ st.elapsed ≥ mergedMaxTestTime cfg →
      ¬ (st.elapsed ≥ mergedMinTestTime cfg ∧
          st.samples.length ≥ mergedMinSamples cfg ∧
          (calculateStats st.samples).error ≤ (mergedTargetError cfg : ℝ)) →
      measureSpeedLoop cfg avail fallbackUrls st
          (⟨d, runRound (inputs.map runDownloadWorker)⟩ :: rs)
        = measureSpeedLoop cfg avail fallbackUrls
            ⟨st.samples ++ [0],
              SpeedTest.adjustThreadCount st.samples st.activeThreads
                (calculateStats st.samples) cfg,
              st.elapsed + d + 500, st.currentUrl, st.urlIndex⟩ rs) ∧
    calculateStats (samples ++ [0]) = calculateStats samples := by
  have hzero : ∀ (i : DLInput), isNonAbortErrorTerminal i.terminal = true →
      runDownloadWorker i = Except.ok 0 := by
    intro i hi
    cases ht : i.terminal with
    | done now2 => rw [ht] at hi; simp [isNonAbortErrorTerminal] at hi
    | errored name now2 =>
      rw [ht] at hi
      simp only [isNonAbortErrorTerminal, decide_eq_true_eq] at hi
      simp [runDownloadWorker, downloadTestWorker, ht, hi]
  refine ⟨by simp [downloadTestWorker, he], ?_, ?_, ?_, calculateStats_append_zero samples⟩
  · exact runRound_all_ok _ (by
      intro r hr
      obtain ⟨i, _, rfl⟩ := List.mem_map.mp hr
      exact downloadTestWorker_isOk _ _ _ _)
  · intro hall
    exact runRound_all_zero _ (by
      intro r hr
      obtain ⟨i, hi, rfl⟩ := List.mem_map.mp hr
      exact hzero i (hall i hi))
  · intro d cfg avail fallbackUrls st rs hall h1 h2
    have hout : runRound (inputs.map runDownloadWorker) = Except.ok 0 :=
      runRound_all_zero _ (by
        intro r hr
        obtain ⟨i, hi, rfl⟩ := List.mem_map.mp hr
        exact hzero i (hall i hi))
    exact measureSpeedLoop_step_ok cfg avail fallbackUrls st
      ⟨d, runRound (inputs.map runDownloadWorker)⟩ rs 0 hout h1 h2

/-- Witness for C10 at a single worker failing with a TypeError. -/
theorem claim_C10_witness :
    downloadTestWorker 0 0 [⟨100, 10⟩] (.errored "TypeError" 1000) = Except.ok 0 ∧
    (∃ v, runRound ([⟨0, 0, [⟨100, 10⟩], .errored "TypeError" 1000⟩].map runDownloadWorker)
        = Except.ok v) ∧
    ((∀ i ∈ [(⟨0, 0, [⟨100, 10⟩], .errored "TypeError" 1000⟩ : DLInput)],
        isNonAbortErrorTerminal i.terminal = true) →
      runRound ([⟨0, 0, [⟨100, 10⟩], .errored "TypeError" 1000⟩].map runDownloadWorker)
        = Except.ok 0) ∧
    (∀ (d : ℚ) (cfg : TestConfigBase) (avail : String → Bool)
        (fallbackUrls : List String) (st : LoopState) (rs : List Round),
      (∀ i ∈ [(⟨0, 0, [⟨100, 10⟩], .errored "TypeError" 1000⟩ : DLInput)],
        isNonAbortErrorTerminal i.terminal = true) →
      ¬ st.elapsed ≥ mergedMaxTestTime cfg →
      ¬ (st.elapsed ≥ mergedMinTestTime cfg ∧
          st.samples.length ≥ mergedMinSamples cfg ∧
          (calculateStats st.samples).error ≤ (mergedTargetError cfg : ℝ)) →
      measureSpeedLoop cfg avail fallbackUrls st
          (⟨d, runRound ([⟨0, 0, [⟨100, 10⟩], .errored "TypeError" 1000⟩].map runDownloadWorker)⟩ :: rs)
        = measureSpeedLoop cfg avail fallbackUrls
            ⟨st.samples ++ [0],
              SpeedTest.adjustThreadCount st.samples st.activeThreads
                (calculateStats st.samples) cfg,
              st.elapsed + d + 500, st.currentUrl, st.urlIndex⟩ rs) ∧
    calculateStats ([40, 50] ++ [0]) = calculateStats [40, 50] :=
  claim_C10_download_zero_on_failure 0 0 [⟨100, 10⟩] "TypeError" 1000
    [⟨0, 0, [⟨100, 10⟩], .errored "TypeError" 1000⟩] [40, 50] (by decide)

/-- Result of one whole-transfer attempt inside the retry loop. -/
inductive AttemptOutcome where
  | success (speed : ℚ)
  | failure (errName : String)

/-- Observable behavior of one worker invocation: the settled promise,
the number of transfer attempts made and the backoff sleeps (ms) taken. -/
structure WorkerRun where
  result : Except String ℚ
  attempts : ℕ
  sleeps : List ℚ

/-- The `while (retryCount < MAX_RETRIES)` retry loop shared by the
part_015 download worker and src/models/workers/upload.ts, with
`MAX_RETRIES = 3` and `RETRY_DELAY = 1000`: a successful attempt returns
its value; a failed attempt increments `retryCount` and rethrows once
`retryCount >= MAX_RETRIES`, otherwise sleeps 1000 ms and retries.
Returns the escaping result, the attempts made and the sleeps taken. -/
def retryLoop (attempts : ℕ → AttemptOutcome) (retryCount : ℕ) :
    Except String ℚ × ℕ × List ℚ :=
  if retryCount < 3 then
    match attempts retryCount with
    | .success v => (.ok v, 1, [])
    | .failure e =>
      if 3 ≤ retryCount + 1 then (.error e, 1, [])
      else
        let rest := retryLoop attempts (retryCount + 1)
        (rest.1, 1 + rest.2.1, 1000 :: rest.2.2)
  else (.error "Max retries exceeded", 0, [])
termination_by 3 - retryCount

/-- The part_015 `downloadTestWorker` outer structure: run the retry loop;
if an error escapes it, the outer catch resolves an `AbortError` with the
partial average `(totalBytes*8)/((endTime-startTime)/1000)` and resolves
any other error with 0 — it never rejects. -/
def downloadTestWorkerRetry (attempts : ℕ → AttemptOutcome) (totalBytes : ℕ)
    (startTime endTime : ℚ) : WorkerRun :=
  let r := retryLoop attempts 0
  match r.1 with
  | .ok v => ⟨.ok v, r.2.1, r.2.2⟩
  | .error e =>
    if e = "AbortError" then
      ⟨.ok (((totalBytes : ℚ) * 8) / ((endTime - startTime) / 1000)), r.2.1, r.2.2⟩
    else ⟨.ok 0, r.2.1, r.2.2⟩

/-- `testUploadWorker` (src/models/workers/upload.ts) outer structure:
same retry loop; the outer catch resolves an `AbortError` with the partial
average and rethrows every other error. -/
def testUploadWorker (attempts : ℕ → AttemptOutcome) (totalBytes : ℕ)
    (startTime endTime : ℚ) : WorkerRun :=
  let r := retryLoop attempts 0
  match r.1 with
  | .ok v => ⟨.ok v, r.2.1, r.2.2⟩
  | .error e =>
    if e = "AbortError" then
      ⟨.ok (((totalBytes : ℚ) * 8) / ((endTime - startTime) / 1000)), r.2.1, r.2.2⟩
    else ⟨.error e, r.2.1, r.2.2⟩

/-- Is the attempt a failure with an error other than an abort? -/
def isNonAbortFailure : AttemptOutcome → Bool
  | .failure e => decide (e ≠ "AbortError")
  | .success _ => false

theorem retryLoop_three_failures (attempts : ℕ → AttemptOutcome)
    (e0 e1 e2 : String) (h0 : attempts 0 = .failure e0)
    (h1 : attempts 1 = .failure e1) (h2 : attempts 2 = .failure e2) :
    retryLoop attempts 0 = (Except.error e2, 3, [1000, 1000]) := by
  rw [retryLoop]
  simp only [h0]
  norm_num
  rw [retryLoop]
  simp only [h1]
  norm_num
  rw [retryLoop]
  simp only [h2]
  norm_num

/-- C5 fails as stated: after exhausting the retries the part_015
download worker does not propagate the failure — the outer catch maps a
non-abort error to a resolution with 0 bps. Concrete input: every attempt
fails with a TypeError; the worker makes 3 attempts, sleeps twice for
1000 ms, and resolves with 0. -/
theorem claim_C5_counterexample :
    downloadTestWorkerRetry (fun _ => .failure "TypeError") 0 0 1000
      = ⟨Except.ok 0, 3, [1000, 1000]⟩ := by
  have h := retryLoop_three_failures (fun _ => .failure "TypeError")
    "TypeError" "TypeError" "TypeError" rfl rfl rfl
  simp [downloadTestWorkerRetry, h]

/-- C5 amended: for transfers whose attempts all fail with non-abort I/O
errors, the download worker retries the whole transfer up to
`MAX_RETRIES = 3` total attempts with a fixed 1-second backoff between
consecutive attempts, and after exhausting the retries the escaping
failure is caught and the worker resolves with 0 bps (it does not
propagate the failure to its caller). -/
theorem claim_C5_amended_download_retry (attempts : ℕ → AttemptOutcome)
    (totalBytes : ℕ) (startTime endTime : ℚ)
    (h : ∀ i < 3, isNonAbortFailure (attempts i) = true) :
    downloadTestWorkerRetry attempts totalBytes startTime endTime
      = ⟨Except.ok 0, 3, [1000, 1000]⟩ := by
  have hfail : ∀ i < 3, ∃ e, attempts i = .failure e ∧ e ≠ "AbortError" := by
    intro i hi
    have hh := h i hi
    cases ha : attempts i with
    | success v => rw [ha] at hh; simp [isNonAbortFailure] at hh
    | failure e =>
      rw [ha] at hh
      simp only [isNonAbortFailure, decide_eq_true_eq] at hh
      exact ⟨e, rfl, hh⟩
  obtain ⟨e0, ha0, _⟩ := hfail 0 (by norm_num)
  obtain ⟨e1, ha1, _⟩ := hfail 1 (by norm_num)
  obtain ⟨e2, ha2, hne2⟩ := hfail 2 (by norm_num)
  have hr := retryLoop_three_failures attempts e0 e1 e2 ha0 ha1 ha2
  simp [downloadTestWorkerRetry, hr, hne2]

/-- Witness for the amended C5: all attempts fail with a TypeError. -/
theorem claim_C5_amended_witness :
    downloadTestWorkerRetry (fun i => .failure (if i = 0 then "TypeError" else "ECONNRESET"))
        4096 0 1000
      = ⟨Except.ok 0, 3, [1000, 1000]⟩ :=
  claim_C5_amended_download_retry _ 4096 0 1000 (by decide)

/-- C6: a transfer worker cancelled by the abort signal mid-transfer with
`bytesSoFar > 0` resolves with the average speed achieved so far,
`(bytesSoFar*8)/elapsedSeconds` — for the download worker directly from
its catch, and for the upload worker once the abort escapes its retry
loop; in both cases the result is a resolution (not a rejection) and is
strictly positive. -/
theorem claim_C6_abort_partial_average (startTime fetchTime : ℚ)
    (events : List ReadEvent) (now : ℚ)
    (attempts : ℕ → AttemptOutcome) (totalBytes : ℕ) (uStart uEnd : ℚ)
    (hbytes : 0 < (events.foldl downloadStep ⟨0, [], fetchTime, 65536⟩).totalBytes)
    (htime : startTime < now)
    (habort : (retryLoop attempts 0).1 = Except.error "AbortError")
    (hubytes : 0 < totalBytes) (hutime : uStart < uEnd) :
    (downloadTestWorker startTime fetchTime events (.errored "AbortError" now)
      = Except.ok
          ((((events.foldl downloadStep ⟨0, [], fetchTime, 65536⟩).totalBytes : ℚ) * 8)
            / ((now - startTime) / 1000)) ∧
      0 < (((events.foldl downloadStep ⟨0, [], fetchTime, 65536⟩).totalBytes : ℚ) * 8)
            / ((now - startTime) / 1000)) ∧
    ((testUploadWorker attempts totalBytes uStart uEnd).result
      = Except.ok (((totalBytes : ℚ) * 8) / ((uEnd - uStart) / 1000)) ∧
      0 < ((totalBytes : ℚ) * 8) / ((uEnd - uStart) / 1000)) := by
  constructor
  · constructor
    · simp [downloadTestWorker]
    · apply div_pos
      · have : (0 : ℚ) < ((events.foldl downloadStep ⟨0, [], fetchTime, 65536⟩).totalBytes : ℚ) := by
          exact_mod_cast hbytes
        linarith
      · have : (0 : ℚ) < now - startTime := by linarith
        linarith
  · constructor
    · simp [testUploadWorker, habort]
    · apply div_pos
      · have : (0 : ℚ) < (totalBytes : ℚ) := by exact_mod_cast hubytes
        linarith
      · have : (0 : ℚ) < uEnd - uStart := by linarith
        linarith

/-- Witness for C6: download aborted at t = 1000 ms with 100 bytes read;
upload whose every attempt ends in an `AbortError`. -/
theorem claim_C6_witness :
    (downloadTestWorker 0 0 [⟨100, 10⟩] (.errored "AbortError" 1000)
      = Except.ok
          (((([⟨100, 10⟩] : List ReadEvent).foldl downloadStep ⟨0, [], 0, 65536⟩).totalBytes : ℚ) * 8
            / ((1000 - 0) / 1000)) ∧
      0 < ((([⟨100, 10⟩] : List ReadEvent).foldl downloadStep ⟨0, [], 0, 65536⟩).totalBytes : ℚ) * 8
            / ((1000 - 0) / 1000)) ∧
    ((testUploadWorker (fun _ => .failure "AbortError") 2048 0 1000).result
      = Except.ok (((2048 : ℕ) : ℚ) * 8 / ((1000 - 0) / 1000)) ∧
      0 < ((2048 : ℕ) : ℚ) * 8 / ((1000 - 0) / 1000)) :=
  claim_C6_abort_partial_average 0 0 [⟨100, 10⟩] 1000
    (fun _ => .failure "AbortError") 2048 0 1000
    (by norm_num [List.foldl, downloadStep]) (by norm_num)
    (by
      rw [retryLoop_three_failures (fun _ => .failure "AbortError")
        "AbortError" "AbortError" "AbortError" rfl rfl rfl])
    (by norm_num) (by norm_num)

/-- Outcome of the prober's single `fetch`: a completed response with its
status code, or a thrown error with its name. -/
inductive FetchOutcome where
  | response (status : ℕ)
  | error (name : String)

/-- `checkUrlAvailability` (src/models/workers/check.ts): a completed
response yields the hard-coded `result = true` (the status-based check is
commented out behind a TODO); in the catch an `AbortError` is ignored as
expected and yields `true`, and any other error yields `false`. -/
def checkUrlAvailability : FetchOutcome → Bool
  | .response _ => true
  | .error name => if name = "AbortError" then true else false

/-- C8 fails as stated: the claim says the prober returns `false` exactly
on a network-level failure or an abort before any response, but the
catch explicitly returns `true` for an `AbortError`. Concrete input: the
fetch fails with an `AbortError`, yet the prober reports available. -/
theorem claim_C8_counterexample :
    ¬ (∀ o : FetchOutcome,
        checkUrlAvailability o = false ↔ ∃ name, o = FetchOutcome.error name) := by
  intro h
  have habort := (h (.error "AbortError")).mpr ⟨"AbortError", rfl⟩
  simp [checkUrlAvailability] at habort

/-- C8 amended: the Availability Prober returns `true` for every completed
HTTP response regardless of status code, returns `true` as well when the
request fails with an `AbortError`, and returns `false` exactly when the
request fails with a non-abort error. -/
theorem claim_C8_amended_checkUrlAvailability (o : FetchOutcome) :
    (∀ s, checkUrlAvailability (.response s) = true) ∧
    (checkUrlAvailability (.error "AbortError") = true) ∧
    (checkUrlAvailability o = false ↔
      ∃ name, o = FetchOutcome.error name ∧ name ≠ "AbortError") := by
  refine ⟨fun s => rfl, by simp [checkUrlAvailability], ?_⟩
  cases o with
  | response s =>
    simp [checkUrlAvailability]
  | error name =>
    by_cases h : name = "AbortError"
    · subst h
      simp [checkUrlAvailability]
    · simp [checkUrlAvailability, h]

/-- Witness for the amended C8 at a concrete network failure. -/
theorem claim_C8_amended_witness :
    (∀ s, checkUrlAvailability (.response s) = true) ∧
    (checkUrlAvailability (.error "AbortError") = true) ∧
    (checkUrlAvailability (.error "ECONNREFUSED") = false ↔
      ∃ name, FetchOutcome.error "ECONNREFUSED" = FetchOutcome.error name ∧
        name ≠ "AbortError") :=
  claim_C8_amended_checkUrlAvailability (.error "ECONNREFUSED")

/-- Outcome of one HTTP probe attempt as seen by the transport: a
completed response (status and measured latency), the transport's
"protocol unsupported" error, an abort after the status line (latency
still measured), or any other error. -/
inductive H2Outcome where
  | response (status : ℕ) (latency : ℚ)
  | unsupportedProtocol
  | abortError (latency : ℚ)
  | otherError (name : String)
  deriving DecidableEq

/-- `measureHTTPLatencyH2` (src/unnamed/part_012): on a response returns
`Math.round(latency)` when `response.ok` (status 200–299) and −1
otherwise; returns −2 on `UnsupportedProtocolError` to signal the
HTTP/1.1 fallback; returns the rounded latency on `AbortError`; −1 on any
other error. -/
def measureHTTPLatencyH2 : H2Outcome → ℤ
  | .response status lat => if 200 ≤ status ∧ status < 300 then round lat else -1
  | .unsupportedProtocol => -2
  | .abortError lat => round lat
  | .otherError _ => -1

/-- The inline HTTP/1.1 attempt of `measureHTTPLatency`: same handling,
except that an `UnsupportedProtocolError` now falls into the generic −1
branch (there is no further fallback). -/
def http11Attempt : H2Outcome → ℤ
  | .response status lat => if 200 ≤ status ∧ status < 300 then round lat else -1
  | .abortError lat => round lat
  | .unsupportedProtocol => -1
  | .otherError _ => -1

/-- `measureHTTPLatency` (src/unnamed/part_012): try HTTP/2 first; if the
result is not the −2 sentinel return it with no fallback attempt,
otherwise make exactly one HTTP/1.1 attempt against the same `testUrl`.
The second component records the URLs of the fallback attempts made. -/
def measureHTTPLatency (testUrl : String) (h2 : H2Outcome) (h1 : H2Outcome) :
    ℤ × List String :=
  let h2Result := measureHTTPLatencyH2 h2
  if h2Result ≠ -2 then (h2Result, [])
  else (http11Attempt h1, [testUrl])

/-- A measured latency is nonnegative (timestamps are monotone). -/
def latencyNonneg : H2Outcome → Prop
  | .response _ lat => 0 ≤ lat
  | .abortError lat => 0 ≤ lat
  | .unsupportedProtocol => True
  | .otherError _ => True

theorem round_nonneg_of_nonneg (lat : ℚ) (h : 0 ≤ lat) : (0 : ℤ) ≤ round lat := by
  rw [round_eq]
  exact Int.floor_nonneg.mpr (by linarith)

theorem measureHTTPLatencyH2_eq_neg_two_iff (h2 : H2Outcome)
    (hlat : latencyNonneg h2) :
    measureHTTPLatencyH2 h2 = -2 ↔ h2 = H2Outcome.unsupportedProtocol := by
  cases h2 with
  | response status lat =>
    simp only [measureHTTPLatencyH2]
    constructor
    · intro h
      by_cases hok : 200 ≤ status ∧ status < 300
      · rw [if_pos hok] at h
        have := round_nonneg_of_nonneg lat hlat
        omega
      · rw [if_neg hok] at h
        omega
    · intro h
      exact absurd h (by simp)
  | unsupportedProtocol => simp [measureHTTPLatencyH2]
  | abortError lat =>
    simp only [measureHTTPLatencyH2]
    constructor
    · intro h
      have := round_nonneg_of_nonneg lat hlat
      omega
    · intro h
      exact absurd h (by simp)
  | otherError name =>
    simp only [measureHTTPLatencyH2]
    constructor
    · intro h; omega
    · intro h; exact absurd h (by simp)

/-- C9: an HTTP latency probe whose HTTP/2 attempt fails with the
transport's "protocol unsupported" error makes exactly one HTTP/1.1
fallback attempt against the same URL; every other HTTP/2 outcome
(success, other error, or an abort after the headers) is returned as the
probe's result with no fallback attempt. -/
theorem claim_C9_http11_fallback (testUrl : String) (h2 h1 : H2Outcome)
    (hlat : latencyNonneg h2) :
    ((measureHTTPLatency testUrl h2 h1).2 = [testUrl] ↔
      h2 = H2Outcome.unsupportedProtocol) ∧
    (h2 = H2Outcome.unsupportedProtocol →
      measureHTTPLatency testUrl h2 h1 = (http11Attempt h1, [testUrl])) ∧
    (h2 ≠ H2Outcome.unsupportedProtocol →
      measureHTTPLatency testUrl h2 h1 = (measureHTTPLatencyH2 h2, [])) := by
  have hkey := measureHTTPLatencyH2_eq_neg_two_iff h2 hlat
  by_cases hun : h2 = H2Outcome.unsupportedProtocol
  · have hval : measureHTTPLatencyH2 h2 = -2 := hkey.mpr hun
    refine ⟨?_, ?_, ?_⟩
    · simp [measureHTTPLatency, hval, hun, measureHTTPLatencyH2]
    · intro _
      simp [measureHTTPLatency, hval]
    · intro h
      exact absurd hun h
  · have hval : measureHTTPLatencyH2 h2 ≠ -2 := fun hc => hun (hkey.mp hc)
    refine ⟨?_, ?_, ?_⟩
    · simp only [measureHTTPLatency, if_pos hval]
      constructor
      · intro h
        exact absurd h.symm (List.cons_ne_nil _ _)
      · intro h
        exact absurd h hun
    · intro h
      exact absurd h hun
    · intro _
      simp [measureHTTPLatency, hval]

/-- Witness for C9: abort-after-headers at 500 µs (no fallback), checked
against an HTTP/1.1 outcome that would have answered 200. -/
theorem claim_C9_witness :
    ((measureHTTPLatency "https://x.test/" (.abortError 500) (.response 200 300)).2
        = ["https://x.test/"] ↔
      H2Outcome.abortError 500 = H2Outcome.unsupportedProtocol) ∧
    (H2Outcome.abortError 500 = H2Outcome.unsupportedProtocol →
      measureHTTPLatency "https://x.test/" (.abortError 500) (.response 200 300)
        = (http11Attempt (.response 200 300), ["https://x.test/"])) ∧
    (H2Outcome.abortError 500 ≠ H2Outcome.unsupportedProtocol →
      measureHTTPLatency "https://x.test/" (.abortError 500) (.response 200 300)
        = (measureHTTPLatencyH2 (.abortError 500), [])) :=
  claim_C9_http11_fallback "https://x.test/" (.abortError 500) (.response 200 300)
    (by norm_num [latencyNonneg])

end AquaSpeed
